import Mathlib

/-!
Shallow embedding of the iqoptionbot core (src/indicators.py, src/trade.py,
src/assets.py): the indicator pipeline with its caches, the indicator
snapshot data model, the signal strategy layer, and the trading state
machine.  Python floats are modelled as `PyFloat` (a rational or one of the
IEEE non-finite values) where non-finiteness matters, and as `ℚ` where the
source guarantees finite values.  Stateful Python code is embedded as
explicit state passing.
-/

/-- A Python/numpy float as produced by talib: either a finite value or one
of the non-finite IEEE values.  `isinstance(v, (int, float))` is true for
all of these, including `nan` and the infinities. -/
inductive PyFloat where
  | fin (q : ℚ)
  | nan
  | pinf
  | ninf
deriving DecidableEq, Repr

/-- IEEE `<` on floats: any comparison involving `nan` is false. -/
def PyFloat.lt : PyFloat → PyFloat → Bool
  | .fin a, .fin b => a < b
  | .fin _, .pinf => true
  | .ninf, .fin _ => true
  | .ninf, .pinf => true
  | _, _ => false

/-- IEEE `<=` on floats: any comparison involving `nan` is false. -/
def PyFloat.le : PyFloat → PyFloat → Bool
  | .fin a, .fin b => a ≤ b
  | .fin _, .pinf => true
  | .ninf, .fin _ => true
  | .ninf, .pinf => true
  | .pinf, .pinf => true
  | .ninf, .ninf => true
  | _, _ => false

/-- Finiteness of a Python float value. -/
def PyFloat.isFinite : PyFloat → Bool
  | .fin _ => true
  | _ => false

/-- A value stored under an indicator name in a per-asset snapshot dict by
`calculate_indicators` (src/indicators.py lines 108-117): either a scalar
(RSI/SMA/EMA, which pass a finite `min_val <= value <= max_val` range check
before storage, hence always finite) or a sub-dict of floats (STOCHASTIC,
MACD, BOLLINGER sub-values, which are only type-checked and may be
non-finite). -/
inductive IndValue where
  | num (q : ℚ)
  | table (entries : List (String × PyFloat))
deriving DecidableEq, Repr

/-- A per-asset indicator snapshot: the Python dict `results[asset]`.  An
entry `(k, none)` models `results[asset][k] = None`. -/
abbrev Snapshot := List (String × Option IndValue)

/-- Python `d.get(key)`: `none` both when the key is absent and when the
stored value is `None`, exactly as the `is None` tests in the source
conflate the two. -/
def Snapshot.get (s : Snapshot) (k : String) : Option IndValue :=
  match s.find? (fun e => e.1 == k) with
  | some e => e.2
  | none => none

/-- Python `d.get(key)` read as a scalar, as the source does for `RSI`,
`SMA`, `EMA`, `BB_upper` and `BB_lower`.  The pipeline stores only scalars
or `None` under the keys read this way, so a `table` value (which Python
would not treat as `None` but would fail to compare) does not arise. -/
def Snapshot.getNum (s : Snapshot) (k : String) : Option ℚ :=
  match Snapshot.get s k with
  | some (.num q) => some q
  | _ => none

/-- Python `d.get(key, {}).get(sub)`, as the source reads stochastic, MACD
and Bollinger sub-values. -/
def Snapshot.getSub (s : Snapshot) (k sub : String) : Option PyFloat :=
  match Snapshot.get s k with
  | some (.table es) =>
      match es.find? (fun e => e.1 == sub) with
      | some e => some e.2
      | none => none
  | _ => none

/-- Modelled from the spec: the `settings` module is not under src/; this
record carries its configuration surface (timeframe, enabled-indicator
flags and their periods/bounds, strategy selector, buy/sell thresholds,
trade percentage base/min/max, cooldown, daily loss limit, streak
thresholds), used as parameters by the embedded code. -/
structure Config where
  tradePercentage : ℚ
  tradePercentageMin : ℚ
  tradePercentageMax : ℚ
  dailyLossLimit : ℚ
  consecutiveLossesThreshold : ℕ
  consecutiveWinsThreshold : ℕ
  rsiBuyThreshold : ℚ
  rsiSellThreshold : ℚ
  stochasticBuyThreshold : ℚ
  stochasticSellThreshold : ℚ
  macdIndicator : Bool
  rsiIndicator : Bool
  smaIndicator : Bool
  emaIndicator : Bool
  stochasticIndicator : Bool
  rsiMin : ℚ
  rsiMax : ℚ
  smaMin : ℚ
  smaMax : ℚ
  emaMin : ℚ
  emaMax : ℚ
  rsiPeriod : ℕ
  smaPeriod : ℕ
  emaPeriod : ℕ
  stochasticKPeriod : ℕ
  macdSlowPeriod : ℕ
deriving DecidableEq, Repr

/-- The value one talib computation step yielded for one indicator before
the acceptance checks of src/indicators.py lines 108-121: a scalar, a dict
of sub-values (`none` modelling a Python `None` sub-value), or a raised
exception. -/
inductive RawValue where
  | scalar (x : PyFloat)
  | structured (entries : List (String × Option PyFloat))
  | raises
deriving DecidableEq, Repr

/-- The acceptance logic of src/indicators.py lines 108-121 for a single
computed indicator value.  Dict values are accepted iff every sub-value is
not `None` and is an instance of `int`/`float` (every `PyFloat` is, so the
test is `isSome`); scalar values must be numeric and within the configured
range (IEEE comparisons, so `nan` never passes).  A raised computation
stores `None`.  The scalar rows of the source config always carry finite
bounds, so a non-finite scalar can never pass the range check. -/
def storeIndicator (minVal maxVal : PyFloat) : RawValue → Option IndValue
  | .scalar x =>
      if PyFloat.le minVal x && PyFloat.le x maxVal then
        match x with
        | .fin q => some (.num q)
        | _ => none
      else none
  | .structured entries =>
      if entries.all (fun e => e.2.isSome) then
        some (.table (entries.filterMap (fun e => e.2.map (fun v => (e.1, v)))))
      else none
  | .raises => none

/-- The `indicators_config` rows of src/indicators.py lines 50-61: for each
enabled indicator its name, acceptance bounds and lookback period.
Stochastic, MACD and Bollinger carry infinite bounds; Bollinger is always
present with fixed period 50. -/
def indicatorConfig (cfg : Config) : List (String × PyFloat × PyFloat × ℕ) :=
  (if cfg.rsiIndicator then [("RSI", .fin cfg.rsiMin, .fin cfg.rsiMax, cfg.rsiPeriod)] else []) ++
  (if cfg.smaIndicator then [("SMA", .fin cfg.smaMin, .fin cfg.smaMax, cfg.smaPeriod)] else []) ++
  (if cfg.emaIndicator then [("EMA", .fin cfg.emaMin, .fin cfg.emaMax, cfg.emaPeriod)] else []) ++
  (if cfg.stochasticIndicator then [("STOCHASTIC", .ninf, .pinf, cfg.stochasticKPeriod)] else []) ++
  (if cfg.macdIndicator then [("MACD", .ninf, .pinf, cfg.macdSlowPeriod)] else []) ++
  [("BOLLINGER", .ninf, .pinf, 50)]

/-- The per-asset snapshot built by the indicator loop of
src/indicators.py lines 90-121: one entry per configured indicator, under
the indicator's name (`"BOLLINGER"` for the band pair, never `"BB_upper"`
or `"BB_lower"` as top-level keys), holding the accepted value or `None`.
The talib numerics are abstracted as the oracle `raw`. -/
def computeSnapshot (cfg : Config) (raw : String → RawValue) : Snapshot :=
  (indicatorConfig cfg).map (fun row => (row.1, storeIndicator row.2.1 row.2.2.1 (raw row.1)))

/-- An open order as tracked by the trading state (the dict built at
src/trade.py lines 239-242). -/
structure Order where
  id : ℕ
  asset : String
  direction : String
  amount : ℚ
  openPrice : ℚ
deriving DecidableEq, Repr

/-- The `TradingState` of src/trade.py lines 18-27. -/
structure TradingState where
  openOrders : List Order
  lastTradeTime : List (String × ℤ)
  dailyLoss : ℚ
  initialDailyBalance : ℚ
  lastResetTime : Option ℤ
  consecutiveLosses : ℕ
  consecutiveWins : ℕ
  currentTradePercentage : ℚ
deriving DecidableEq, Repr

/-- `TradingState.update_loss` (src/trade.py lines 52-55). -/
def update_loss (st : TradingState) (amount : ℚ) : TradingState :=
  { st with
    dailyLoss := st.dailyLoss + amount
    consecutiveLosses := st.consecutiveLosses + 1
    consecutiveWins := 0 }

/-- `TradingState.update_win` (src/trade.py lines 57-60). -/
def update_win (st : TradingState) (profit : ℚ) : TradingState :=
  { st with
    dailyLoss := st.dailyLoss - profit
    consecutiveWins := st.consecutiveWins + 1
    consecutiveLosses := 0 }

/-- `TradingState.adjust_trade_percentage` (src/trade.py lines 62-71). -/
def adjust_trade_percentage (cfg : Config) (st : TradingState) : TradingState :=
  if st.consecutiveLosses ≥ cfg.consecutiveLossesThreshold then
    { st with currentTradePercentage := max cfg.tradePercentageMin (st.currentTradePercentage * (3 / 10)) }
  else if st.consecutiveWins ≥ cfg.consecutiveWinsThreshold then
    { st with currentTradePercentage := min cfg.tradePercentageMax (st.currentTradePercentage * (12 / 10)) }
  else
    { st with currentTradePercentage := cfg.tradePercentage }

/-- `TradingState.check_daily_loss_limit` (src/trade.py lines 73-80),
returning the mutated state together with the boolean result. -/
def check_daily_loss_limit (cfg : Config) (st : TradingState) : TradingState × Bool :=
  if st.initialDailyBalance > 0 then
    let lossPct := st.dailyLoss / st.initialDailyBalance * 100
    if lossPct ≥ cfg.dailyLossLimit ∨ st.consecutiveLosses ≥ 3 then
      ({ st with currentTradePercentage := max cfg.tradePercentageMin (st.currentTradePercentage * (3 / 10)) }, false)
    else (st, true)
  else (st, true)

/-- `TradingState.update_trade_time` (src/trade.py lines 49-50): the dict
assignment replaces any previous timestamp for the asset. -/
def update_trade_time (st : TradingState) (asset : String) (now : ℤ) : TradingState :=
  { st with
    lastTradeTime := (asset, now) :: st.lastTradeTime.filter (fun e => e.1 ≠ asset) }

/-- Python `self.last_trade_time.get(asset, 0)` (src/trade.py line 198). -/
def lookup_trade_time (l : List (String × ℤ)) (asset : String) : ℤ :=
  match l.find? (fun e => e.1 == asset) with
  | some e => e.2
  | none => 0

/-- `TradingState.remove_order` (src/trade.py lines 42-47): removes the
first matching entry, and is a no-op when the order is absent (the
`ValueError` is caught). -/
def remove_order (st : TradingState) (o : Order) : TradingState :=
  { st with openOrders := st.openOrders.erase o }

/-- `is_trade_signal_trend` (src/trade.py lines 84-109). -/
def is_trade_signal_trend (cfg : Config) (ind : Snapshot) (price : ℚ) : Option String :=
  let rsi := Snapshot.getNum ind "RSI"
  let sma := Snapshot.getNum ind "SMA"
  let stochK := Snapshot.getSub ind "STOCHASTIC" "k"
  let stochD := Snapshot.getSub ind "STOCHASTIC" "d"
  let macd := Snapshot.getSub ind "MACD" "macd"
  let signal := Snapshot.getSub ind "MACD" "signal"
  let bbUpper := Snapshot.getNum ind "BB_upper"
  let bbLower := Snapshot.getNum ind "BB_lower"
  match rsi, sma, stochK, stochD, bbUpper, bbLower with
  | some rsi, some sma, some k, some _, some bu, some bl =>
    if cfg.macdIndicator then
      match macd, signal with
      | some m, some s =>
        if rsi < cfg.rsiBuyThreshold ∧ PyFloat.lt k (.fin cfg.stochasticBuyThreshold)
            ∧ price ≥ sma * (99 / 100) ∧ price > bl ∧ PyFloat.lt s m then
          some "call"
        else if rsi > cfg.rsiSellThreshold ∧ PyFloat.lt (.fin cfg.stochasticSellThreshold) k
            ∧ price < bu ∧ PyFloat.lt m s then
          some "put"
        else none
      | _, _ => none
    else
      if rsi < cfg.rsiBuyThreshold ∧ PyFloat.lt k (.fin cfg.stochasticBuyThreshold)
          ∧ price ≥ sma * (99 / 100) ∧ price > bl then
        some "call"
      else if rsi > cfg.rsiSellThreshold ∧ PyFloat.lt (.fin cfg.stochasticSellThreshold) k
          ∧ price < bu then
        some "put"
      else none
  | _, _, _, _, _, _ => none

/-- `is_trade_signal_reversal` (src/trade.py lines 111-120). -/
def is_trade_signal_reversal (ind : Snapshot) : Option String :=
  match Snapshot.getNum ind "RSI", Snapshot.getSub ind "STOCHASTIC" "k" with
  | some rsi, some k =>
    if rsi ≤ 20 ∧ PyFloat.le k (.fin 20) then some "call"
    else if rsi ≥ 80 ∧ PyFloat.le (.fin 80) k then some "put"
    else none
  | _, _ => none

/-- `is_trade_signal_breakout` (src/trade.py lines 122-131). -/
def is_trade_signal_breakout (ind : Snapshot) (price : ℚ) : Option String :=
  match Snapshot.getNum ind "SMA", Snapshot.getNum ind "EMA" with
  | some sma, some ema =>
    if price > sma ∧ price > ema then some "call"
    else if price < sma ∧ price < ema then some "put"
    else none
  | _, _ => none

/-- `get_signal_for_strategy` (src/trade.py lines 133-141). -/
def get_signal_for_strategy (cfg : Config) (strategy : String) (ind : Snapshot) (price : ℚ) : Option String :=
  if strategy = "trend" then is_trade_signal_trend cfg ind price
  else if strategy = "reversal" then is_trade_signal_reversal ind
  else if strategy = "breakout" then is_trade_signal_breakout ind price
  else none

/-- One entry of the broker's order history as read at src/trade.py lines
177-180: an id, a status string, and an optional profit field (`0` when the
key is absent). -/
structure BrokerOrder where
  id : ℕ
  status : String
  profit : Option ℚ
deriving DecidableEq, Repr

/-- What the external collaborators yield while one open order is checked
in the monitoring pass (src/trade.py lines 154-188): either some call
before the band/price guard raises, or the per-asset snapshot from
`calculate_indicators`, the extracted current price, and the broker order
history (`none` when the `getprofile` query raises). -/
inductive OrderOutcome where
  | raiseEarly
  | checked (snap : Snapshot) (price : Option ℚ) (brokerQuery : Option (List BrokerOrder))

/-- The trailing-stop rule of src/trade.py lines 166-175: a call order
whose price fell below the lower band, or a put order whose price rose
above the upper band, records a loss of the staked amount and is queued
for removal. -/
def trailingStopStep (acc : TradingState × List Order) (o : Order) (p bu bl : ℚ) :
    TradingState × List Order :=
  if o.direction = "call" ∧ p < bl then (update_loss acc.1 o.amount, acc.2 ++ [o])
  else if o.direction = "put" ∧ p > bu then (update_loss acc.1 o.amount, acc.2 ++ [o])
  else acc

/-- The broker reconciliation of src/trade.py lines 177-185: a broker
order with status `closed` records a win of its profit (when positive) or
a loss of the staked amount, and queues the order for removal. -/
def brokerReconcileStep (acc : TradingState × List Order) (o : Order)
    (orders : List BrokerOrder) : TradingState × List Order :=
  match orders.find? (fun b => b.id == o.id) with
  | some info =>
    if info.status = "closed" then
      if info.profit.getD 0 > 0 then (update_win acc.1 (info.profit.getD 0), acc.2 ++ [o])
      else (update_loss acc.1 o.amount, acc.2 ++ [o])
    else acc
  | none => acc

/-- The body of the monitoring loop of src/trade.py lines 154-188 for one
open order, threading the trading state and the `to_remove` list.  Any
exception lands in the `except` branch, which only queues the order for
removal; with bands or price missing (or a price of `0.0`, which is falsy)
the order is skipped via `continue`; otherwise the trailing-stop rule and
then the broker reconciliation run; a broker query that raises lands in
the `except` branch after any trailing-stop effect. -/
def processOrder (env : Order → OrderOutcome) (acc : TradingState × List Order) (o : Order) :
    TradingState × List Order :=
  match env o with
  | .raiseEarly => (acc.1, acc.2 ++ [o])
  | .checked snap price brokerQuery =>
    match Snapshot.getNum snap "BB_upper", Snapshot.getNum snap "BB_lower", price with
    | some bu, some bl, some p =>
      if p = 0 then acc
      else
        match brokerQuery with
        | none =>
          ((trailingStopStep acc o p bu bl).1, (trailingStopStep acc o p bu bl).2 ++ [o])
        | some orders => brokerReconcileStep (trailingStopStep acc o p bu bl) o orders
    | _, _, _ => acc

/-- The whole monitoring pass of src/trade.py lines 153-190: iterate over
the open orders accumulating state mutations and the `to_remove` list,
then remove every queued order. -/
def monitorPass (env : Order → OrderOutcome) (st : TradingState) : TradingState :=
  let acc := st.openOrders.foldl (processOrder env) (st, [])
  acc.2.foldl remove_order acc.1

/-- A candle as consumed by the pipeline (src/indicators.py lines 85-87):
close, high (`max`) and low (`min`) prices. -/
structure Candle where
  close : ℚ
  max : ℚ
  min : ℚ
deriving DecidableEq, Repr

/-- One entry of the module-level `candle_cache` `TTLCache` of
src/indicators.py line 23: key, absolute expiry instant and value.  An
entry is live while `now < expire`.  The capacity bound (`maxsize=100`)
is not modelled; the claims below never approach it. -/
structure CandleCacheEntry where
  key : String
  expire : ℤ
  candles : List Candle
deriving DecidableEq, Repr

/-- The module-level candle cache state. -/
abbrev CandleCache := List CandleCacheEntry

/-- TTLCache lookup at an instant: a hit only on a live entry. -/
def cacheLookup (c : CandleCache) (k : String) (now : ℤ) : Option (List Candle) :=
  match c.find? (fun e => e.key == k ∧ now < e.expire) with
  | some e => some e.candles
  | none => none

/-- TTLCache insertion: replaces any entry under the same key. -/
def cacheInsert (c : CandleCache) (k : String) (expire : ℤ) (cs : List Candle) : CandleCache :=
  c.filter (fun e => e.key ≠ k) ++ [⟨k, expire, cs⟩]

/-- The batch cache key of src/indicators.py line 45:
`f"{timeframe}_{','.join(sorted(assets))}"`. -/
def cacheKey (timeframe : ℕ) (assets : List String) : String :=
  toString timeframe ++ "_" ++ String.intercalate "," (assets.insertionSort (fun a b => a ≤ b))

/-- `max(period for ...)` over the configured rows (src/indicators.py line
72); the list is never empty since the Bollinger row is always present. -/
def maxPeriod (cfg : Config) : ℕ :=
  ((indicatorConfig cfg).map (fun row => row.2.2.2)).foldl max 0

/-- The outcome of one `calculate_indicators` call: the per-asset results,
the updated module-level candle cache, the number of fetches issued to the
market-data collaborator, and whether the batch cache lookup hit. -/
structure CalcResult where
  results : List (String × Snapshot)
  candleCache : CandleCache
  fetchCalls : ℕ
  batchHit : Bool

/-- `calculate_indicators` (src/indicators.py lines 39-128) with the state
made explicit.  `get_indicator_cache` (lines 19-21) constructs a brand-new
`TTLCache` on every call, so the batch-cache lookup of line 46 runs against
an empty cache and the store of line 126 writes into a local object that is
dropped on return; the embedding keeps both faithfully.  The candle fetch
and the talib numerics are oracles (`fetch`, `rawC`); a fetch whose retries
are exhausted is absorbed by the per-asset `except` and is not distinguished
here from an empty candle list. -/
def calculate_indicators (cfg : Config) (fetch : String → ℕ → ℕ → List Candle)
    (rawC : List Candle → String → RawValue) (cc : CandleCache)
    (assets : List String) (timeframe : ℕ) (now : ℤ) : CalcResult :=
  if assets.isEmpty then ⟨[], cc, 0, false⟩
  else
    let freshBatchCache : List (String × List (String × Snapshot)) := []
    let key := cacheKey timeframe assets
    match freshBatchCache.find? (fun e => e.1 == key) with
    | some e => ⟨e.2, cc, 0, true⟩
    | none =>
      let mp := maxPeriod cfg
      let hist := Nat.max 1800 (timeframe * (mp * 3))
      let step := fun (acc : List (String × Snapshot) × CandleCache × ℕ) (asset : String) =>
        let ckey := asset ++ "_" ++ toString timeframe ++ "_" ++ toString hist
        let fetched :=
          match cacheLookup acc.2.1 ckey now with
          | some cs => (cs, acc.2.1, acc.2.2)
          | none =>
            let cs := fetch asset timeframe hist
            (cs, cacheInsert acc.2.1 ckey (now + 300) cs, acc.2.2 + 1)
        if fetched.1.isEmpty ∨ fetched.1.length < mp then
          (acc.1 ++ [(asset, ([] : Snapshot))], fetched.2.1, fetched.2.2)
        else
          (acc.1 ++ [(asset, (computeSnapshot cfg (rawC fetched.1) : Snapshot))], fetched.2.1, fetched.2.2)
      let out := assets.foldl step ([], cc, 0)
      ⟨out.1, out.2.1, out.2.2, false⟩

/-- The result of `client.buy` at src/trade.py line 237: either a raised
exception or a returned pair; `orderIdTruthy` is the Python truthiness of
the returned order id. -/
inductive BuyOutcome where
  | raises
  | ret (check : Bool) (orderIdTruthy : Bool) (orderId : ℕ)
deriving DecidableEq, Repr

/-- The order submission step of src/trade.py lines 236-247: on a raised
exception or a falsy `(check, order_id)` pair nothing happens; on success
the new order is appended and the asset's last trade time updated. -/
def submitStep (st : TradingState) (asset direction : String) (amount price : ℚ)
    (now : ℤ) (outcome : BuyOutcome) : TradingState :=
  match outcome with
  | .raises => st
  | .ret check truthy oid =>
    if check && truthy then
      update_trade_time
        { st with openOrders := st.openOrders ++ [⟨oid, asset, direction, amount, price⟩] }
        asset now
    else st

/-- Python `round(x, 2)` modelled as rounding to the nearest cent; the
claims proved about it hold for every rounding mode since they only
constrain the subsequent clamp. -/
def round2 (q : ℚ) : ℚ := (round (q * 100) : ℤ) / 100

/-- The stake sizing of src/trade.py lines 229-230:
`round((pct / 100) * balance, 2)` then `max(1.0, min(5000.0, amount))`. -/
def computeAmount (pct balance : ℚ) : ℚ :=
  max 1 (min 5000 (round2 (pct / 100 * balance)))

/-- The entry-rejection test of src/trade.py line 232:
`amount < 1.0 or not trading_state.check_daily_loss_limit(balance)`. -/
def entryRejected (cfg : Config) (st : TradingState) (amount : ℚ) : Prop :=
  amount < 1 ∨ (check_daily_loss_limit cfg st).2 = false

/-- C10: for every balance and trade percentage, the stake amount after
rounding and clamping lies in the closed interval `[1, 5000]`; hence the
entry test `amount < 1.0` is never satisfied and at that point an entry can
only be rejected by the daily-loss gate. -/
theorem c10_amount_always_clamped (cfg : Config) (st : TradingState) (pct balance : ℚ) :
    (1 ≤ computeAmount pct balance ∧ computeAmount pct balance ≤ 5000)
    ∧ ¬ computeAmount pct balance < 1
    ∧ (entryRejected cfg st (computeAmount pct balance) ↔ (check_daily_loss_limit cfg st).2 = false) := by
  have h1 : 1 ≤ computeAmount pct balance := le_max_left _ _
  have h2 : computeAmount pct balance ≤ 5000 :=
    max_le (by norm_num) (min_le_left _ _)
  refine ⟨⟨h1, h2⟩, not_lt.mpr h1, ?_⟩
  constructor
  · rintro (h | h)
    · exact absurd h (not_lt.mpr h1)
    · exact h
  · exact fun h => Or.inr h

/-- C7: the indicator-batch cache key is invariant under permutation of
the instrument list, because the key is built from the timeframe and the
sorted instrument list. -/
theorem c7_cache_key_perm_invariant (t : ℕ) (a b : List String) (h : a.Perm b) :
    cacheKey t a = cacheKey t b := by
  unfold cacheKey
  haveI : IsAntisymm String (fun x y : String => x ≤ y) := ⟨fun _ _ hxy hyx => le_antisymm hxy hyx⟩
  haveI : IsTotal String (fun x y : String => x ≤ y) := ⟨fun x y => le_total x y⟩
  haveI : IsTrans String (fun x y : String => x ≤ y) := ⟨fun _ _ _ hxy hyz => le_trans hxy hyz⟩
  have hs : a.insertionSort (fun x y => x ≤ y) = b.insertionSort (fun x y => x ≤ y) :=
    List.eq_of_perm_of_sorted
      ((List.perm_insertionSort _ a).trans (h.trans (List.perm_insertionSort _ b).symm))
      (List.sorted_insertionSort _ a)
      (List.sorted_insertionSort _ b)
  rw [hs]

/-- Witness for C7 at a concrete permuted pair of instrument lists. -/
theorem c7_cache_key_perm_invariant_witness :
    (["GBPUSD-OTC", "EURUSD-OTC"] : List String).Perm ["EURUSD-OTC", "GBPUSD-OTC"]
    ∧ cacheKey 60 ["GBPUSD-OTC", "EURUSD-OTC"] = cacheKey 60 ["EURUSD-OTC", "GBPUSD-OTC"] :=
  ⟨by decide, c7_cache_key_perm_invariant 60 _ _ (by decide)⟩

/-- Counterexample config for C3. -/
def c3cfgC : Config :=
  { tradePercentage := 5, tradePercentageMin := 1, tradePercentageMax := 10,
    dailyLossLimit := 10, consecutiveLossesThreshold := 3, consecutiveWinsThreshold := 3,
    rsiBuyThreshold := 30, rsiSellThreshold := 70,
    stochasticBuyThreshold := 20, stochasticSellThreshold := 80,
    macdIndicator := false, rsiIndicator := true, smaIndicator := true,
    emaIndicator := false, stochasticIndicator := true,
    rsiMin := 0, rsiMax := 100, smaMin := 0, smaMax := 1000000,
    emaMin := 0, emaMax := 1000000,
    rsiPeriod := 14, smaPeriod := 20, emaPeriod := 9,
    stochasticKPeriod := 14, macdSlowPeriod := 26 }

/-- Counterexample state for C3: uninitialized daily balance together with
three consecutive losses. -/
def c3stC : TradingState :=
  { openOrders := [], lastTradeTime := [], dailyLoss := 5, initialDailyBalance := 0,
    lastResetTime := none, consecutiveLosses := 3, consecutiveWins := 0,
    currentTradePercentage := 5 }

/-- Counterexample to C3 as stated: with `initialDailyBalance = 0` and
`consecutiveLosses = 3` the claimed condition for returning false holds
(`consecutiveLosses ≥ 3`), yet the code returns true, because the whole
check is guarded by `initial_daily_balance > 0`. -/
theorem c3_cex_uninitialized_balance :
    (check_daily_loss_limit c3cfgC c3stC).2 = true
    ∧ (c3stC.dailyLoss / c3stC.initialDailyBalance * 100 ≥ c3cfgC.dailyLossLimit
        ∨ c3stC.consecutiveLosses ≥ 3) := by
  constructor
  · norm_num [check_daily_loss_limit, c3stC]
  · exact Or.inr (by norm_num [c3stC])

/-- C3 as amended: `check_daily_loss_limit` returns false exactly when
`initialDailyBalance > 0` and (loss-percentage ≥ limit or
`consecutiveLosses ≥ 3`); it always returns true when `initialDailyBalance`
is 0; and on the false branch it shrinks `currentTradePercentage` to
`max(minPercentage, currentTradePercentage × 0.3)`. -/
theorem c3_daily_loss_gate_amended (cfg : Config) (st : TradingState) :
    ((check_daily_loss_limit cfg st).2 = false ↔
      (0 < st.initialDailyBalance
        ∧ (st.dailyLoss / st.initialDailyBalance * 100 ≥ cfg.dailyLossLimit
            ∨ st.consecutiveLosses ≥ 3)))
    ∧ ((check_daily_loss_limit cfg st).2 = false →
        (check_daily_loss_limit cfg st).1.currentTradePercentage
          = max cfg.tradePercentageMin (st.currentTradePercentage * (3 / 10)))
    ∧ (st.initialDailyBalance = 0 → (check_daily_loss_limit cfg st).2 = true) := by
  have key : check_daily_loss_limit cfg st =
      (if st.initialDailyBalance > 0 then
        (if st.dailyLoss / st.initialDailyBalance * 100 ≥ cfg.dailyLossLimit
            ∨ st.consecutiveLosses ≥ 3 then
          ({ st with currentTradePercentage := max cfg.tradePercentageMin (st.currentTradePercentage * (3 / 10)) }, false)
        else (st, true))
      else (st, true)) := rfl
  rw [key]
  by_cases h1 : st.initialDailyBalance > 0
  · rw [if_pos h1]
    by_cases h2 : st.dailyLoss / st.initialDailyBalance * 100 ≥ cfg.dailyLossLimit
        ∨ st.consecutiveLosses ≥ 3
    · rw [if_pos h2]
      refine ⟨⟨fun _ => ⟨h1, h2⟩, fun _ => rfl⟩, fun _ => rfl, fun h0 => ?_⟩
      rw [h0] at h1
      exact absurd h1 (lt_irrefl 0)
    · rw [if_neg h2]
      refine ⟨⟨fun hx => ?_, fun hx => absurd hx.2 h2⟩, fun hx => ?_, fun _ => rfl⟩
      · simp at hx
      · simp at hx
  · rw [if_neg h1]
    refine ⟨⟨fun hx => ?_, fun hx => absurd hx.1 h1⟩, fun hx => ?_, fun _ => rfl⟩
    · simp at hx
    · simp at hx

/-- Witness state for C3's amended theorem: a halting state with half of
the initial daily balance lost. -/
def c3stW : TradingState :=
  { openOrders := [], lastTradeTime := [], dailyLoss := 50, initialDailyBalance := 100,
    lastResetTime := none, consecutiveLosses := 0, consecutiveWins := 0,
    currentTradePercentage := 5 }

/-- Witness for C3's amended theorem at a concrete halting state. -/
theorem c3_daily_loss_gate_amended_witness :
    (check_daily_loss_limit c3cfgC c3stW).2 = false
    ∧ (check_daily_loss_limit c3cfgC c3stW).1.currentTradePercentage
      = max c3cfgC.tradePercentageMin (c3stW.currentTradePercentage * (3 / 10)) := by
  have h := c3_daily_loss_gate_amended c3cfgC c3stW
  have hf : (check_daily_loss_limit c3cfgC c3stW).2 = false :=
    h.1.mpr ⟨by norm_num [c3stW], Or.inl (by norm_num [c3stW, c3cfgC])⟩
  exact ⟨hf, h.2.1 hf⟩

/-- Counterexample to C5 as stated: a structured value with a `nan`
sub-value passes the acceptance test of src/indicators.py line 109 (every
sub-value is a non-None float instance) and is stored, although `nan` is
not a finite number. -/
theorem c5_cex_nan_substructure_stored :
    storeIndicator .ninf .pinf
        (.structured [("k", some .nan), ("d", some (.fin 0))])
      = some (.table [("k", .nan), ("d", .fin 0)])
    ∧ PyFloat.isFinite .nan = false := by
  exact ⟨rfl, rfl⟩

/-- C5 as amended: a structured indicator value is stored in the snapshot
iff every one of its sub-values is a non-None numeric instance; the check
is a type check only, so `nan` and infinite sub-values are accepted and
stored rather than recorded as unavailable. -/
theorem c5_structured_acceptance_amended (minVal maxVal : PyFloat)
    (entries : List (String × Option PyFloat)) :
    (storeIndicator minVal maxVal (.structured entries)).isSome
      ↔ entries.all (fun e => e.2.isSome) = true := by
  simp only [storeIndicator]
  by_cases h : entries.all (fun e => e.2.isSome) = true
  · simp [h]
  · simp [h]

/-- Config for C4's example: trend strategy inputs with MACD disabled,
RSI buy-threshold 30 (above 25) and stochastic buy-threshold 20 (above
15). -/
def c4cfg : Config :=
  { tradePercentage := 5, tradePercentageMin := 1, tradePercentageMax := 10,
    dailyLossLimit := 10, consecutiveLossesThreshold := 3, consecutiveWinsThreshold := 3,
    rsiBuyThreshold := 30, rsiSellThreshold := 70,
    stochasticBuyThreshold := 20, stochasticSellThreshold := 80,
    macdIndicator := false, rsiIndicator := true, smaIndicator := true,
    emaIndicator := false, stochasticIndicator := true,
    rsiMin := 0, rsiMax := 100, smaMin := 0, smaMax := 1000000,
    emaMin := 0, emaMax := 1000000,
    rsiPeriod := 14, smaPeriod := 20, emaPeriod := 9,
    stochasticKPeriod := 14, macdSlowPeriod := 26 }

/-- Talib results for C4's example: RSI=25, SMA=100, %K=15, %D=20,
Bollinger bands upper=105 and lower=95. -/
def c4raw : String → RawValue := fun name =>
  if name = "RSI" then .scalar (.fin 25)
  else if name = "SMA" then .scalar (.fin 100)
  else if name = "STOCHASTIC" then .structured [("k", some (.fin 15)), ("d", some (.fin 20))]
  else if name = "BOLLINGER" then .structured [("BB_upper", some (.fin 105)), ("BB_lower", some (.fin 95))]
  else .raises

/-- The indicator snapshot the pipeline produces for C4's example. -/
def c4snap : Snapshot := computeSnapshot c4cfg c4raw

/-- C4 evaluated at the failing input: on the snapshot the pipeline
produces for RSI=25, SMA=100, %K=15, %D=20, bands=(95,105), MACD disabled,
the trend strategy yields no signal at price 101 (the claim expects
`call`), because the bands sit nested under the `"BOLLINGER"` key while
`is_trade_signal_trend` reads the top-level keys `"BB_upper"`/`"BB_lower"`,
which are absent; the price-94 case yields no signal as well. -/
theorem c4_trend_example_dead_band_lookup :
    get_signal_for_strategy c4cfg "trend" c4snap 101 = none
    ∧ get_signal_for_strategy c4cfg "trend" c4snap 94 = none
    ∧ Snapshot.getSub c4snap "BOLLINGER" "BB_upper" = some (.fin 105)
    ∧ Snapshot.getSub c4snap "BOLLINGER" "BB_lower" = some (.fin 95)
    ∧ Snapshot.getNum c4snap "BB_upper" = none
    ∧ Snapshot.getNum c4snap "BB_lower" = none
    ∧ Snapshot.getNum c4snap "RSI" = some 25
    ∧ Snapshot.getNum c4snap "SMA" = some 100
    ∧ Snapshot.getSub c4snap "STOCHASTIC" "k" = some (.fin 15) := by
  refine ⟨rfl, rfl, rfl, rfl, rfl, rfl, rfl, rfl, rfl⟩

/-- C8: the submission step mutates nothing on failure (raised exception or
falsy broker reply), and on success appends exactly the one new order and
updates the asset's last trade time, leaving every other field unchanged. -/
theorem c8_submission_frame (st : TradingState) (asset direction : String)
    (amount price : ℚ) (now : ℤ) :
    (submitStep st asset direction amount price now .raises = st)
    ∧ (∀ check truthy oid, (check && truthy) = false →
        submitStep st asset direction amount price now (.ret check truthy oid) = st)
    ∧ (∀ check truthy oid, (check && truthy) = true →
        (submitStep st asset direction amount price now (.ret check truthy oid)).openOrders
          = st.openOrders ++ [⟨oid, asset, direction, amount, price⟩]
        ∧ lookup_trade_time
            (submitStep st asset direction amount price now (.ret check truthy oid)).lastTradeTime asset
          = now
        ∧ (submitStep st asset direction amount price now (.ret check truthy oid)).dailyLoss
          = st.dailyLoss
        ∧ (submitStep st asset direction amount price now (.ret check truthy oid)).initialDailyBalance
          = st.initialDailyBalance
        ∧ (submitStep st asset direction amount price now (.ret check truthy oid)).consecutiveLosses
          = st.consecutiveLosses
        ∧ (submitStep st asset direction amount price now (.ret check truthy oid)).consecutiveWins
          = st.consecutiveWins
        ∧ (submitStep st asset direction amount price now (.ret check truthy oid)).currentTradePercentage
          = st.currentTradePercentage) := by
  refine ⟨rfl, fun check truthy oid h => ?_, fun check truthy oid h => ?_⟩
  · simp [submitStep, h]
  · simp only [submitStep, h, if_true]
    refine ⟨rfl, ?_, rfl, rfl, rfl, rfl, rfl⟩
    simp [update_trade_time, lookup_trade_time]

/-- Witness state for C8. -/
def c8st : TradingState :=
  { openOrders := [], lastTradeTime := [("EURUSD-OTC", 500)], dailyLoss := 2,
    initialDailyBalance := 1000, lastResetTime := some 0, consecutiveLosses := 1,
    consecutiveWins := 0, currentTradePercentage := 5 }

/-- Witness for C8 at a concrete state, exercising both the failure and the
success branch. -/
theorem c8_submission_frame_witness :
    submitStep c8st "EURUSD-OTC" "call" 10 1 900 (.ret true false 7) = c8st
    ∧ (submitStep c8st "EURUSD-OTC" "call" 10 1 900 (.ret true true 7)).openOrders
      = c8st.openOrders ++ [⟨7, "EURUSD-OTC", "call", 10, 1⟩]
    ∧ lookup_trade_time
        (submitStep c8st "EURUSD-OTC" "call" 10 1 900 (.ret true true 7)).lastTradeTime "EURUSD-OTC"
      = 900 :=
  ⟨(c8_submission_frame c8st "EURUSD-OTC" "call" 10 1 900).2.1 true false 7 rfl,
   ((c8_submission_frame c8st "EURUSD-OTC" "call" 10 1 900).2.2 true true 7 rfl).1,
   ((c8_submission_frame c8st "EURUSD-OTC" "call" 10 1 900).2.2 true true 7 rfl).2.1⟩

/-- Config for C2: only the always-present Bollinger row is enabled, so the
longest lookback is 50. -/
def c2cfg : Config :=
  { tradePercentage := 5, tradePercentageMin := 1, tradePercentageMax := 10,
    dailyLossLimit := 10, consecutiveLossesThreshold := 3, consecutiveWinsThreshold := 3,
    rsiBuyThreshold := 30, rsiSellThreshold := 70,
    stochasticBuyThreshold := 20, stochasticSellThreshold := 80,
    macdIndicator := false, rsiIndicator := false, smaIndicator := false,
    emaIndicator := false, stochasticIndicator := false,
    rsiMin := 0, rsiMax := 100, smaMin := 0, smaMax := 1000000,
    emaMin := 0, emaMax := 1000000,
    rsiPeriod := 14, smaPeriod := 20, emaPeriod := 9,
    stochasticKPeriod := 14, macdSlowPeriod := 26 }

/-- Market-data oracle for C2: every fetch yields 50 identical candles. -/
def c2fetch : String → ℕ → ℕ → List Candle := fun _ _ _ => List.replicate 50 ⟨1, 1, 1⟩

/-- Talib oracle for C2. -/
def c2raw : List Candle → String → RawValue := fun _ name =>
  if name = "BOLLINGER" then .structured [("BB_upper", some (.fin 2)), ("BB_lower", some (.fin 1))]
  else .raises

/-- The first `calculate_indicators` call of C2's scenario, at time 0 with
an empty candle cache. -/
def c2first : CalcResult := calculate_indicators c2cfg c2fetch c2raw [] ["EURUSD-OTC"] 60 0

/-- The identical second call, 10 time units later (well inside both the
batch TTL window `timeframe × 5 = 300` and the candle TTL `300`). -/
def c2second : CalcResult :=
  calculate_indicators c2cfg c2fetch c2raw c2first.candleCache ["EURUSD-OTC"] 60 10

/-- C2 evaluated at the failing input: the second identical batch request,
issued within the TTL window, is NOT a batch-cache hit (the claim says it
is), because `get_indicator_cache` builds a brand-new empty `TTLCache` on
every call; the recomputation produces the same results and issues zero
fetches only thanks to the module-level candle cache. -/
theorem c2_second_call_misses_batch_cache :
    c2second.batchHit = false
    ∧ c2second.fetchCalls = 0
    ∧ c2first.fetchCalls = 1
    ∧ c2second.results = c2first.results
    ∧ (10 : ℤ) < 60 * 5 := by
  refine ⟨rfl, rfl, rfl, rfl, by norm_num⟩

/-- Config for C1: trend-style configuration, MACD disabled. -/
def c1cfg : Config :=
  { tradePercentage := 5, tradePercentageMin := 1, tradePercentageMax := 10,
    dailyLossLimit := 10, consecutiveLossesThreshold := 3, consecutiveWinsThreshold := 3,
    rsiBuyThreshold := 30, rsiSellThreshold := 70,
    stochasticBuyThreshold := 20, stochasticSellThreshold := 80,
    macdIndicator := false, rsiIndicator := true, smaIndicator := true,
    emaIndicator := false, stochasticIndicator := true,
    rsiMin := 0, rsiMax := 100, smaMin := 0, smaMax := 1000000,
    emaMin := 0, emaMax := 1000000,
    rsiPeriod := 14, smaPeriod := 20, emaPeriod := 9,
    stochasticKPeriod := 14, macdSlowPeriod := 26 }

/-- Talib results for C1: Bollinger bands upper=105 and lower=95. -/
def c1raw : String → RawValue := fun name =>
  if name = "RSI" then .scalar (.fin 50)
  else if name = "SMA" then .scalar (.fin 100)
  else if name = "STOCHASTIC" then .structured [("k", some (.fin 50)), ("d", some (.fin 50))]
  else if name = "BOLLINGER" then .structured [("BB_upper", some (.fin 105)), ("BB_lower", some (.fin 95))]
  else .raises

/-- The per-asset snapshot `calculate_indicators` produces during C1's
monitoring pass. -/
def c1snap : Snapshot := computeSnapshot c1cfg c1raw

/-- The tracked open call order of C1's scenario. -/
def c1order : Order := ⟨1, "EURUSD-OTC", "call", 10, 100⟩

/-- The trading state entering C1's monitoring pass. -/
def c1st : TradingState :=
  { openOrders := [c1order], lastTradeTime := [], dailyLoss := 0,
    initialDailyBalance := 1000, lastResetTime := some 0, consecutiveLosses := 0,
    consecutiveWins := 0, currentTradePercentage := 5 }

/-- The collaborator responses while C1's order is checked: the pipeline
snapshot, current price 90 (below the lower band 95), and an empty broker
order history. -/
def c1env : Order → OrderOutcome := fun _ => .checked c1snap (some 90) (some [])

/-- C1 evaluated at the failing input: an open call order whose current
price 90 lies below the pipeline-computed lower band 95 is NOT closed by
the monitoring pass — the state is returned unchanged, no loss is recorded
and the streak counters stay put (the claim expects a close and a loss) —
because the pass reads the bands from the absent top-level keys
`"BB_upper"`/`"BB_lower"` and skips the order via `continue` when they are
`None`, while the pipeline stores the bands under `"BOLLINGER"`. -/
theorem c1_trailing_stop_never_fires :
    monitorPass c1env c1st = c1st
    ∧ (monitorPass c1env c1st).openOrders = [c1order]
    ∧ Snapshot.getSub c1snap "BOLLINGER" "BB_lower" = some (.fin 95)
    ∧ (90 : ℚ) < 95
    ∧ c1order.direction = "call"
    ∧ Snapshot.getNum c1snap "BB_lower" = none
    ∧ Snapshot.getNum c1snap "BB_upper" = none := by
  refine ⟨rfl, rfl, rfl, by norm_num, rfl, rfl, rfl⟩

/-- One streak-affecting operation of the trading state machine. -/
inductive StreakOp where
  | loss (amount : ℚ)
  | win (profit : ℚ)
  | adjust
deriving DecidableEq, Repr

/-- Apply one streak operation to the state. -/
def applyStreakOp (cfg : Config) (st : TradingState) : StreakOp → TradingState
  | .loss a => update_loss st a
  | .win p => update_win st p
  | .adjust => adjust_trade_percentage cfg st

/-- Run a sequence of `update_loss`/`update_win`/`adjust_trade_percentage`
calls, as the per-cycle loop of src/trade.py interleaves them. -/
def runStreakOps (cfg : Config) (st : TradingState) (ops : List StreakOp) : TradingState :=
  ops.foldl (applyStreakOp cfg) st

/-- One `adjust_trade_percentage` call keeps the percentage within the
configured bounds, provided the configuration is well-formed and the
incoming percentage is within bounds. -/
theorem adjust_trade_percentage_bounds (cfg : Config) (st : TradingState)
    (h0 : 0 ≤ cfg.tradePercentageMin)
    (h1 : cfg.tradePercentageMin ≤ cfg.tradePercentage)
    (h2 : cfg.tradePercentage ≤ cfg.tradePercentageMax)
    (hlo : cfg.tradePercentageMin ≤ st.currentTradePercentage)
    (hhi : st.currentTradePercentage ≤ cfg.tradePercentageMax) :
    cfg.tradePercentageMin ≤ (adjust_trade_percentage cfg st).currentTradePercentage
    ∧ (adjust_trade_percentage cfg st).currentTradePercentage ≤ cfg.tradePercentageMax := by
  have hpos : 0 ≤ st.currentTradePercentage := le_trans h0 hlo
  unfold adjust_trade_percentage
  split_ifs with hl hw
  · refine ⟨le_max_left _ _, max_le (le_trans h1 h2) ?_⟩
    have hshr : st.currentTradePercentage * (3 / 10) ≤ st.currentTradePercentage := by
      nlinarith
    exact le_trans hshr hhi
  · refine ⟨le_min (le_trans h1 h2) ?_, min_le_left _ _⟩
    have hgrw : st.currentTradePercentage ≤ st.currentTradePercentage * (12 / 10) := by
      nlinarith
    exact le_trans hlo hgrw
  · exact ⟨h1, h2⟩

/-- C6: for a well-formed configuration and a state whose percentage is
within `[minPercentage, maxPercentage]`, any sequence of loss/win updates
and sizing adjustments keeps `currentTradePercentage` within the bounds,
and a single win resets `consecutiveLosses` to 0. -/
theorem c6_streak_sizing_bounded (cfg : Config)
    (h0 : 0 ≤ cfg.tradePercentageMin)
    (h1 : cfg.tradePercentageMin ≤ cfg.tradePercentage)
    (h2 : cfg.tradePercentage ≤ cfg.tradePercentageMax)
    (st : TradingState)
    (hlo : cfg.tradePercentageMin ≤ st.currentTradePercentage)
    (hhi : st.currentTradePercentage ≤ cfg.tradePercentageMax)
    (ops : List StreakOp) :
    (cfg.tradePercentageMin ≤ (runStreakOps cfg st ops).currentTradePercentage
      ∧ (runStreakOps cfg st ops).currentTradePercentage ≤ cfg.tradePercentageMax)
    ∧ (∀ (s : TradingState) (p : ℚ), (update_win s p).consecutiveLosses = 0) := by
  refine ⟨?_, fun s p => rfl⟩
  induction ops generalizing st with
  | nil => exact ⟨hlo, hhi⟩
  | cons op ops ih =>
    cases op with
    | loss a => exact ih (update_loss st a) hlo hhi
    | win p => exact ih (update_win st p) hlo hhi
    | adjust =>
      have hb := adjust_trade_percentage_bounds cfg st h0 h1 h2 hlo hhi
      exact ih (adjust_trade_percentage cfg st) hb.1 hb.2

/-- Witness config for C6. -/
def c6cfg : Config :=
  { tradePercentage := 5, tradePercentageMin := 1, tradePercentageMax := 10,
    dailyLossLimit := 10, consecutiveLossesThreshold := 3, consecutiveWinsThreshold := 3,
    rsiBuyThreshold := 30, rsiSellThreshold := 70,
    stochasticBuyThreshold := 20, stochasticSellThreshold := 80,
    macdIndicator := false, rsiIndicator := true, smaIndicator := true,
    emaIndicator := false, stochasticIndicator := true,
    rsiMin := 0, rsiMax := 100, smaMin := 0, smaMax := 1000000,
    emaMin := 0, emaMax := 1000000,
    rsiPeriod := 14, smaPeriod := 20, emaPeriod := 9,
    stochasticKPeriod := 14, macdSlowPeriod := 26 }

/-- Witness state for C6. -/
def c6st : TradingState :=
  { openOrders := [], lastTradeTime := [], dailyLoss := 0, initialDailyBalance := 1000,
    lastResetTime := some 0, consecutiveLosses := 0, consecutiveWins := 0,
    currentTradePercentage := 5 }

/-- Witness operation sequence for C6: a loss streak, a shrink, a win, a
snap back. -/
def c6ops : List StreakOp := [.loss 1, .loss 1, .loss 1, .adjust, .win 2, .adjust]

/-- Witness for C6 at a concrete configuration, state and operation
sequence. -/
theorem c6_streak_sizing_bounded_witness :
    (c6cfg.tradePercentageMin ≤ (runStreakOps c6cfg c6st c6ops).currentTradePercentage
      ∧ (runStreakOps c6cfg c6st c6ops).currentTradePercentage ≤ c6cfg.tradePercentageMax)
    ∧ (update_win c6st 2).consecutiveLosses = 0 := by
  have h := c6_streak_sizing_bounded c6cfg (by norm_num [c6cfg]) (by norm_num [c6cfg])
    (by norm_num [c6cfg]) c6st (by norm_num [c6cfg, c6st]) (by norm_num [c6cfg, c6st]) c6ops
  exact ⟨h.1, h.2 c6st 2⟩

/-- The trailing-stop step never touches the open-order list itself; it
only queues removals. -/
theorem trailingStopStep_fst_openOrders (acc : TradingState × List Order) (o : Order)
    (p bu bl : ℚ) : (trailingStopStep acc o p bu bl).1.openOrders = acc.1.openOrders := by
  unfold trailingStopStep
  split_ifs <;> rfl

/-- The trailing-stop step only appends to the removal queue. -/
theorem trailingStopStep_snd (acc : TradingState × List Order) (o : Order) (p bu bl : ℚ) :
    ∃ t, (trailingStopStep acc o p bu bl).2 = acc.2 ++ t := by
  unfold trailingStopStep
  split_ifs
  · exact ⟨[o], rfl⟩
  · exact ⟨[o], rfl⟩
  · exact ⟨[], (List.append_nil _).symm⟩

/-- The broker reconciliation step never touches the open-order list; it
only queues removals. -/
theorem brokerReconcileStep_fst_openOrders (acc : TradingState × List Order) (o : Order)
    (orders : List BrokerOrder) :
    (brokerReconcileStep acc o orders).1.openOrders = acc.1.openOrders := by
  unfold brokerReconcileStep
  split
  · split_ifs <;> rfl
  · rfl

/-- The broker reconciliation step only appends to the removal queue. -/
theorem brokerReconcileStep_snd (acc : TradingState × List Order) (o : Order)
    (orders : List BrokerOrder) :
    ∃ t, (brokerReconcileStep acc o orders).2 = acc.2 ++ t := by
  unfold brokerReconcileStep
  split
  · split_ifs
    · exact ⟨[o], rfl⟩
    · exact ⟨[o], rfl⟩
    · exact ⟨[], (List.append_nil _).symm⟩
  · exact ⟨[], (List.append_nil _).symm⟩

/-- Processing one order in the monitoring loop never changes the tracked
open-order list; removals happen only after the loop. -/
theorem processOrder_fst_openOrders (env : Order → OrderOutcome)
    (acc : TradingState × List Order) (o : Order) :
    (processOrder env acc o).1.openOrders = acc.1.openOrders := by
  cases henv : env o with
  | raiseEarly => simp only [processOrder, henv]
  | checked snap price bq =>
    simp only [processOrder, henv]
    split
    · split_ifs with hp
      · rfl
      · cases bq with
        | none => exact trailingStopStep_fst_openOrders _ _ _ _ _
        | some orders =>
          rw [brokerReconcileStep_fst_openOrders]
          exact trailingStopStep_fst_openOrders _ _ _ _ _
    · rfl

/-- Extending a removal-queue extension with one more queued order. -/
theorem snd_ext_append (a : List Order) {b : List Order} (o : Order)
    (h : ∃ t, b = a ++ t) : ∃ t, b ++ [o] = a ++ t := by
  obtain ⟨t, ht⟩ := h
  exact ⟨t ++ [o], by rw [ht, List.append_assoc]⟩

/-- Chaining two removal-queue extensions. -/
theorem snd_ext_trans {a b c : List Order} (h1 : ∃ t, b = a ++ t)
    (h2 : ∃ t, c = b ++ t) : ∃ t, c = a ++ t := by
  obtain ⟨t1, ht1⟩ := h1
  obtain ⟨t2, ht2⟩ := h2
  exact ⟨t1 ++ t2, by rw [ht2, ht1, List.append_assoc]⟩

/-- Processing one order only appends to the removal queue. -/
theorem processOrder_snd (env : Order → OrderOutcome)
    (acc : TradingState × List Order) (o : Order) :
    ∃ t, (processOrder env acc o).2 = acc.2 ++ t := by
  cases henv : env o with
  | raiseEarly => exact ⟨[o], by simp only [processOrder, henv]⟩
  | checked snap price bq =>
    simp only [processOrder, henv]
    split
    · split_ifs with hp
      · exact ⟨[], (List.append_nil _).symm⟩
      · cases bq with
        | none => exact snd_ext_append acc.2 o (trailingStopStep_snd _ _ _ _ _)
        | some orders =>
          exact snd_ext_trans (trailingStopStep_snd _ _ _ _ _) (brokerReconcileStep_snd _ _ _)
    · exact ⟨[], (List.append_nil _).symm⟩

/-- The whole monitoring fold never changes the tracked open-order list. -/
theorem monitorFold_fst_openOrders (env : Order → OrderOutcome) (orders : List Order) :
    ∀ acc, ((orders.foldl (processOrder env) acc).1.openOrders = acc.1.openOrders) := by
  induction orders with
  | nil => intro acc; rfl
  | cons o orders ih =>
    intro acc
    rw [List.foldl_cons, ih (processOrder env acc o)]
    exact processOrder_fst_openOrders env acc o

/-- The whole monitoring fold only appends to the removal queue. -/
theorem monitorFold_snd_ext (env : Order → OrderOutcome) (orders : List Order) :
    ∀ acc, ∃ t, ((orders.foldl (processOrder env) acc).2 = acc.2 ++ t) := by
  induction orders with
  | nil => intro acc; exact ⟨[], (List.append_nil _).symm⟩
  | cons o orders ih =>
    intro acc
    obtain ⟨t1, ht1⟩ := processOrder_snd env acc o
    obtain ⟨t2, ht2⟩ := ih (processOrder env acc o)
    exact ⟨t1 ++ t2, by rw [List.foldl_cons, ht2, ht1, List.append_assoc]⟩

/-- Folding removals never increases the multiplicity of an order among
the open orders. -/
theorem foldl_remove_count_le (o : Order) (rem : List Order) :
    ∀ st : TradingState,
      ((rem.foldl remove_order st).openOrders.count o) ≤ st.openOrders.count o := by
  induction rem with
  | nil => intro st; exact le_refl _
  | cons x xs ih =>
    intro st
    rw [List.foldl_cons]
    refine le_trans (ih (remove_order st x)) ?_
    show (st.openOrders.erase x).count o ≤ st.openOrders.count o
    rw [List.count_erase]
    exact Nat.sub_le _ _

/-- Folding removals over a queue containing the order removes at least
one of its occurrences. -/
theorem foldl_remove_count_lt (o : Order) (rem : List Order) :
    ∀ st : TradingState, o ∈ rem →
      ((rem.foldl remove_order st).openOrders.count o) ≤ st.openOrders.count o - 1 := by
  induction rem with
  | nil => intro st h; exact absurd h (List.not_mem_nil o)
  | cons x xs ih =>
    intro st h
    rw [List.foldl_cons]
    rcases List.mem_cons.mp h with heq | hmem
    · subst heq
      refine le_trans (foldl_remove_count_le o xs (remove_order st o)) ?_
      show (st.openOrders.erase o).count o ≤ st.openOrders.count o - 1
      rw [List.count_erase_self]
    · refine le_trans (ih (remove_order st x) hmem) ?_
      apply Nat.sub_le_sub_right
      show (st.openOrders.erase x).count o ≤ st.openOrders.count o
      rw [List.count_erase]
      exact Nat.sub_le _ _

/-- C9: when the broker query raises while an open order is checked (with
bands and a truthy price available, so the query is reached), that order is
removed from the open orders by the same monitoring pass, and the loop
continues to process the remaining orders: the fold across the whole order
list is exactly the fold across the prefix, then the erroring order, then
the suffix. -/
theorem c9_reconciliation_error_drops_order
    (env : Order → OrderOutcome) (st : TradingState) (pre post : List Order) (o : Order)
    (snap : Snapshot) (price bu bl : ℚ)
    (henv : env o = .checked snap (some price) none)
    (hbu : Snapshot.getNum snap "BB_upper" = some bu)
    (hbl : Snapshot.getNum snap "BB_lower" = some bl)
    (hp0 : price ≠ 0)
    (horders : st.openOrders = pre ++ o :: post)
    (hcount : (pre ++ post).count o = 0) :
    o ∉ (monitorPass env st).openOrders
    ∧ ∀ acc0 : TradingState × List Order,
        (pre ++ o :: post).foldl (processOrder env) acc0
          = post.foldl (processOrder env) (processOrder env (pre.foldl (processOrder env) acc0) o) := by
  have hcont : ∀ acc0 : TradingState × List Order,
      (pre ++ o :: post).foldl (processOrder env) acc0
        = post.foldl (processOrder env) (processOrder env (pre.foldl (processOrder env) acc0) o) := by
    intro acc0
    rw [List.foldl_append, List.foldl_cons]
  refine ⟨?_, hcont⟩
  have hstep : ∀ acc1 : TradingState × List Order,
      processOrder env acc1 o
        = ((trailingStopStep acc1 o price bu bl).1,
            (trailingStopStep acc1 o price bu bl).2 ++ [o]) := by
    intro acc1
    simp only [processOrder, henv, hbu, hbl]
    simp [hp0]
  set accF := st.openOrders.foldl (processOrder env) (st, ([] : List Order)) with haccF
  have hfold : accF
      = post.foldl (processOrder env)
          (processOrder env (pre.foldl (processOrder env) (st, ([] : List Order))) o) := by
    rw [haccF, horders]
    exact hcont (st, [])
  have homem : o ∈ (processOrder env (pre.foldl (processOrder env) (st, ([] : List Order))) o).2 := by
    rw [hstep]
    exact List.mem_append_right _ (List.mem_cons_self o [])
  have hmem : o ∈ accF.2 := by
    obtain ⟨t2, ht2⟩ := monitorFold_snd_ext env post
      (processOrder env (pre.foldl (processOrder env) (st, ([] : List Order))) o)
    rw [hfold, ht2]
    exact List.mem_append_left _ homem
  have hopen : accF.1.openOrders = st.openOrders :=
    monitorFold_fst_openOrders env st.openOrders (st, [])
  have hcnt1 : st.openOrders.count o = 1 := by
    rw [horders, List.count_append, List.count_cons_self]
    rw [List.count_append] at hcount
    omega
  have hfinal : ((accF.2.foldl remove_order accF.1).openOrders.count o) = 0 := by
    have := foldl_remove_count_lt o accF.2 accF.1 hmem
    rw [hopen, hcnt1] at this
    omega
  have hshow : monitorPass env st = accF.2.foldl remove_order accF.1 := rfl
  rw [hshow]
  exact List.count_eq_zero.mp hfinal

/-- Witness snapshot for C9, carrying top-level band keys so the broker
query is reached. -/
def c9snap : Snapshot := [("BB_upper", some (.num 110)), ("BB_lower", some (.num 90))]

/-- The order whose broker query raises in C9's witness scenario. -/
def c9o1 : Order := ⟨1, "EURUSD-OTC", "call", 10, 100⟩

/-- A second tracked order that the pass must still process in C9's
witness scenario. -/
def c9o2 : Order := ⟨2, "GBPUSD-OTC", "put", 10, 100⟩

/-- The collaborator responses of C9's witness scenario: the broker query
raises for the first order and succeeds (empty history) for the second. -/
def c9env : Order → OrderOutcome := fun o =>
  if o.id = 1 then .checked c9snap (some 100) none
  else .checked c9snap (some 100) (some [])

/-- The trading state entering C9's witness scenario. -/
def c9st : TradingState :=
  { openOrders := [c9o1, c9o2], lastTradeTime := [], dailyLoss := 0,
    initialDailyBalance := 1000, lastResetTime := some 0, consecutiveLosses := 0,
    consecutiveWins := 0, currentTradePercentage := 5 }

/-- Witness for C9 at a concrete two-order state. -/
theorem c9_reconciliation_error_drops_order_witness :
    c9o1 ∉ (monitorPass c9env c9st).openOrders
    ∧ (([] : List Order) ++ c9o1 :: [c9o2]).foldl (processOrder c9env) (c9st, [])
      = [c9o2].foldl (processOrder c9env)
          (processOrder c9env (([] : List Order).foldl (processOrder c9env) (c9st, [])) c9o1) := by
  have h := c9_reconciliation_error_drops_order c9env c9st [] [c9o2] c9o1 c9snap 100 110 90
    rfl rfl rfl (by norm_num) rfl (by decide)
  exact ⟨h.1, h.2 (c9st, [])⟩

/-- Witness for C5's amended theorem: a structured value with all
sub-values present is stored. -/
theorem c5_structured_acceptance_amended_witness :
    (storeIndicator .ninf .pinf
      (.structured [("k", some (.fin 1)), ("d", some (.fin 2))])).isSome :=
  (c5_structured_acceptance_amended .ninf .pinf
    [("k", some (.fin 1)), ("d", some (.fin 2))]).mpr (by decide)

/-- Witness config for C10. -/
def c10cfg : Config :=
  { tradePercentage := 5, tradePercentageMin := 1, tradePercentageMax := 10,
    dailyLossLimit := 10, consecutiveLossesThreshold := 3, consecutiveWinsThreshold := 3,
    rsiBuyThreshold := 30, rsiSellThreshold := 70,
    stochasticBuyThreshold := 20, stochasticSellThreshold := 80,
    macdIndicator := false, rsiIndicator := true, smaIndicator := true,
    emaIndicator := false, stochasticIndicator := true,
    rsiMin := 0, rsiMax := 100, smaMin := 0, smaMax := 1000000,
    emaMin := 0, emaMax := 1000000,
    rsiPeriod := 14, smaPeriod := 20, emaPeriod := 9,
    stochasticKPeriod := 14, macdSlowPeriod := 26 }

/-- Witness state for C10. -/
def c10st : TradingState :=
  { openOrders := [], lastTradeTime := [], dailyLoss := 0, initialDailyBalance := 1000,
    lastResetTime := some 0, consecutiveLosses := 0, consecutiveWins := 0,
    currentTradePercentage := 5 }

/-- Witness for C10 at a concrete percentage and balance. -/
theorem c10_amount_always_clamped_witness :
    (1 ≤ computeAmount 5 1000 ∧ computeAmount 5 1000 ≤ 5000)
    ∧ ¬ computeAmount 5 1000 < 1
    ∧ (entryRejected c10cfg c10st (computeAmount 5 1000)
        ↔ (check_daily_loss_limit c10cfg c10st).2 = false) :=
  c10_amount_always_clamped c10cfg c10st 5 1000
